import Mathlib

/- A shallow embedding of the two pinball simulation variants of this
   repository (pinball_2_paddles.py and pinball_template.py).  The scene
   setup data, the input-event handling of the main loop, the collision
   handler remove_ball, the helper unit_vector_between and the per-frame
   stepping structure are translated directly from the source files.  The
   physics core those files drive (the space object) is not part of the
   repository, so where a claim depends on its behaviour the relevant part
   is modelled from the specification: semi-implicit Euler gravity
   integration, per-substep circle/segment overlap detection against the
   out-of-bounds segment, and handler-driven removal of drained balls. -/

namespace Pinball

/-- Two-dimensional vector with rational coordinates (the source's numeric
pairs, embedded exactly). -/
structure Vec2 where
  x : ℚ
  y : ℚ
deriving DecidableEq

/-- The collision category tags of the collision_types dictionary. -/
inductive CollisionCategory
  | ball
  | boundary
  | bumper
deriving DecidableEq

/-- The collision_types dictionary: ball 0, boundary 1, bumper 2. -/
def collision_types : CollisionCategory → ℕ
  | .ball => 0
  | .boundary => 1
  | .bumper => 2

/-- A static segment shape: endpoints, thickness radius, elasticity and
collision type.  The library defaults (elasticity 0, collision type 0)
apply to fields the source does not set. -/
structure Seg where
  a : Vec2
  b : Vec2
  radius : ℚ
  elasticity : ℚ
  collision_type : ℕ
deriving DecidableEq

/-- The out-of-bounds segment from setup_boundaries of pinball_2_paddles.py:
endpoints (0, -20) and (700, -20), radius 5, collision type boundary. -/
def out_of_bounds_segment : Seg :=
  { a := ⟨0, -20⟩, b := ⟨700, -20⟩, radius := 5, elasticity := 0,
    collision_type := collision_types .boundary }

/-- The boundary segments built by setup_boundaries in pinball_2_paddles.py:
five wall segments of radius 5 with elasticity 0.5, then the out-of-bounds
segment appended last. -/
def setup_boundaries_segments : List Seg :=
  [ { a := ⟨50, 160⟩, b := ⟨190, 85⟩, radius := 5, elasticity := 1/2, collision_type := 0 },
    { a := ⟨550, 160⟩, b := ⟨410, 85⟩, radius := 5, elasticity := 1/2, collision_type := 0 },
    { a := ⟨50, 160⟩, b := ⟨50, 800⟩, radius := 5, elasticity := 1/2, collision_type := 0 },
    { a := ⟨550, 800⟩, b := ⟨550, 160⟩, radius := 5, elasticity := 1/2, collision_type := 0 },
    { a := ⟨50, 800⟩, b := ⟨550, 800⟩, radius := 5, elasticity := 1/2, collision_type := 0 },
    out_of_bounds_segment ]

/-- The out-of-bounds segment from setup_boundaries of pinball_template.py
(textually identical to the two-paddle variant's). -/
def template_out_of_bounds_segment : Seg :=
  { a := ⟨0, -20⟩, b := ⟨700, -20⟩, radius := 5, elasticity := 0,
    collision_type := collision_types .boundary }

/-- The boundary segments built by setup_boundaries in pinball_template.py. -/
def template_boundaries_segments : List Seg :=
  [ { a := ⟨50, 160⟩, b := ⟨190, 85⟩, radius := 5, elasticity := 1/2, collision_type := 0 },
    { a := ⟨550, 160⟩, b := ⟨410, 85⟩, radius := 5, elasticity := 1/2, collision_type := 0 },
    { a := ⟨50, 160⟩, b := ⟨50, 800⟩, radius := 5, elasticity := 1/2, collision_type := 0 },
    { a := ⟨550, 800⟩, b := ⟨550, 160⟩, radius := 5, elasticity := 1/2, collision_type := 0 },
    { a := ⟨50, 800⟩, b := ⟨550, 800⟩, radius := 5, elasticity := 1/2, collision_type := 0 },
    template_out_of_bounds_segment ]

/-- The collision handler key registered by pinball_2_paddles.py:
space.add_collision_handler(collision_types ball, collision_types boundary). -/
def pinball2_collision_handler_key : ℕ × ℕ :=
  (collision_types .ball, collision_types .boundary)

/-- The collision handler key registered by pinball_template.py. -/
def template_collision_handler_key : ℕ × ℕ :=
  (collision_types .ball, collision_types .boundary)

/-- Reference to a shape together with the id of its owning body. -/
structure ShapeRef where
  id : ℕ
  body : ℕ
deriving DecidableEq

/-- The arbiter handed to a collision handler: the two colliding shapes,
ordered so that shape0 has the first registered collision type (ball). -/
structure Arbiter where
  shape0 : ShapeRef
  shape1 : ShapeRef

/-- The sets of shape ids and body ids currently added to the space. -/
structure SpaceRefs where
  shapes : Finset ℕ
  bodies : Finset ℕ

/-- The begin handler remove_ball of pinball_2_paddles.py: take the ball
shape from the arbiter, remove that shape and its body from the space, and
return False so that the default bounce response is skipped. -/
def remove_ball (arbiter : Arbiter) (space : SpaceRefs) : SpaceRefs × Bool :=
  let ball_shape := arbiter.shape0
  ({ shapes := space.shapes.erase ball_shape.id,
     bodies := space.bodies.erase ball_shape.body }, false)

/-- The begin handler remove_ball of pinball_template.py (textually
identical to the two-paddle variant's). -/
def remove_ball_template (arbiter : Arbiter) (space : SpaceRefs) : SpaceRefs × Bool :=
  let ball_shape := arbiter.shape0
  ({ shapes := space.shapes.erase ball_shape.id,
     bodies := space.bodies.erase ball_shape.body }, false)

/-- Moment of inertia: a finite value or the infinite sentinel
(pymunk.inf, meaning the body never rotates). -/
inductive Moment
  | finite (value : ℚ)
  | inf
deriving DecidableEq

/-- A ball: the body fields (mass, moment, position, velocity) together
with its single circular shape's fields (radius, elasticity, collision
type), as created by add_ball. -/
structure BallB where
  mass : ℚ
  moment : Moment
  px : ℚ
  py : ℚ
  vx : ℚ
  vy : ℚ
  radius : ℚ
  elasticity : ℚ
  collision_type : ℕ
deriving DecidableEq

/-- add_ball of pinball_2_paddles.py, parameterised by the value x drawn by
random.randrange(100, 500): body of mass 1 and infinite moment at position
(x, 750) with the default zero initial velocity, carrying a circle of
radius 13 with elasticity 0.4 and the ball collision type. -/
def add_ball (x : ℤ) : BallB :=
  { mass := 1, moment := .inf, px := (x : ℚ), py := 750, vx := 0, vy := 0,
    radius := 13, elasticity := 2/5, collision_type := collision_types .ball }

/-- Configuration of one paddle actuator: polygon vertices, body mass,
pivot position, and the damped rotary spring's rest angle (stored in units
of pi), stiffness and damping.  The moment of inertia is computed from
(mass, vertices) by moment_for_poly and is therefore determined by these
fields. -/
structure PaddleDef where
  vertices : List Vec2
  mass : ℚ
  position : Vec2
  rest_angle : ℚ
  stiffness : ℚ
  damping : ℚ
deriving DecidableEq

/-- The right paddle of setup_paddles in pinball_2_paddles.py
(rest angle -pi/6). -/
def r_paddle_def : PaddleDef :=
  { vertices := [⟨0, 0⟩, ⟨80, 0⟩, ⟨80, 20⟩, ⟨0, 20⟩], mass := 10000,
    position := ⟨200, 60⟩, rest_angle := -1/6,
    stiffness := 50000000000, damping := 2000000000 }

/-- The left paddle of setup_paddles in pinball_2_paddles.py
(rest angle pi/6). -/
def l_paddle_def : PaddleDef :=
  { vertices := [⟨0, 0⟩, ⟨-80, 0⟩, ⟨-80, 20⟩, ⟨0, 20⟩], mass := 10000,
    position := ⟨400, 60⟩, rest_angle := 1/6,
    stiffness := 50000000000, damping := 2000000000 }

/-- The single paddle of setup_paddles in pinball_template.py
(rest angle pi/6, pivot at (400, 60)). -/
def template_paddle_def : PaddleDef :=
  { vertices := [⟨0, 0⟩, ⟨-80, 0⟩, ⟨-80, 20⟩, ⟨0, 20⟩], mass := 10000,
    position := ⟨400, 60⟩, rest_angle := 1/6,
    stiffness := 50000000000, damping := 2000000000 }

/-- A damped rotary spring constraint: the two attached body ids, rest
angle (units of pi), stiffness and damping. -/
structure SpringC where
  a : ℕ
  b : ℕ
  rest_angle : ℚ
  stiffness : ℚ
  damping : ℚ
deriving DecidableEq

/-- A pin joint constraint: the two attached body ids. -/
structure PinJointC where
  a : ℕ
  b : ℕ
deriving DecidableEq

/-- Body id of the right paddle's dynamic body. -/
def r_paddle_body_id : ℕ := 0

/-- Body id of the right paddle's static anchor body. -/
def r_paddle_joint_id : ℕ := 1

/-- Body id of the left paddle's dynamic body. -/
def l_paddle_body_id : ℕ := 2

/-- Body id of the left paddle's static anchor body. -/
def l_paddle_joint_id : ℕ := 3

/-- The mutable scene state of pinball_2_paddles.py: the two springs (the
module-level globals r_spring and l_spring), the two pin joints, and the
dynamically spawned balls currently in the space. -/
structure World where
  r_spring : SpringC
  l_spring : SpringC
  r_pinjoint : PinJointC
  l_pinjoint : PinJointC
  balls : List BallB
deriving DecidableEq

/-- The world right after setup(space) of pinball_2_paddles.py:
PinJoint(joint, body) and DampedRotarySpring(a = body, b = joint,
rest angle -pi/6 right and pi/6 left, stiffness 5E10, damping 2E9);
no balls yet. -/
def setup_world : World :=
  { r_spring := { a := r_paddle_body_id, b := r_paddle_joint_id, rest_angle := -1/6,
                  stiffness := 50000000000, damping := 2000000000 },
    l_spring := { a := l_paddle_body_id, b := l_paddle_joint_id, rest_angle := 1/6,
                  stiffness := 50000000000, damping := 2000000000 },
    r_pinjoint := { a := r_paddle_joint_id, b := r_paddle_body_id },
    l_pinjoint := { a := l_paddle_joint_id, b := l_paddle_body_id },
    balls := [] }

/-- The input events the main loop of pinball_2_paddles.py reacts to.  The
space-bar event carries the value drawn by random.randrange(100, 500)
inside add_ball. -/
inductive Event
  | quit
  | escape
  | spaceDown (x : ℤ)
  | leftDown
  | leftUp
  | rightDown
  | rightUp
deriving DecidableEq

/-- The event-handling branch of the main loop of pinball_2_paddles.py:
space spawns a ball; left key down/up sets r_spring.rest_angle to pi/4 and
-pi/6; right key down/up sets l_spring.rest_angle to -pi/4 and pi/6; quit
and escape do not mutate the scene. -/
def applyEvent (w : World) (e : Event) : World :=
  match e with
  | .spaceDown x => { w with balls := w.balls ++ [add_ball x] }
  | .leftDown => { w with r_spring := { w.r_spring with rest_angle := 1/4 } }
  | .leftUp => { w with r_spring := { w.r_spring with rest_angle := -1/6 } }
  | .rightDown => { w with l_spring := { w.l_spring with rest_angle := -1/4 } }
  | .rightUp => { w with l_spring := { w.l_spring with rest_angle := 1/6 } }
  | _ => w

/-- Sequential processing of one frame's event list. -/
def applyEvents (es : List Event) (w : World) : World := es.foldl applyEvent w

/-- The frame rate constant fps = 60 of main. -/
def fps : ℕ := 60

/-- The per-frame duration, step = 1 / fps. -/
def frame_step : ℚ := 1 / (fps : ℚ)

/-- The substep duration step / 5 passed to space.step five times per
frame. -/
def subDt : ℚ := frame_step / 5

/-- The gravity vector set on the space: (0, -900). -/
def gravity : ℚ × ℚ := (0, -900)

/-- Modelled from the spec: one semi-implicit (symplectic) Euler
integration substep for a ball body under uniform gravity, updating the
velocity from gravity first and then the position from the new velocity.
The integrator itself is part of the physics core that is not in the
repository. -/
def ballStep (dt : ℚ) (b : BallB) : BallB :=
  let vx := b.vx + gravity.1 * dt
  let vy := b.vy + gravity.2 * dt
  { b with vx := vx, vy := vy, px := b.px + vx * dt, py := b.py + vy * dt }

/-- Clamp a rational to the interval from lo to hi. -/
def clampQ (lo hi v : ℚ) : ℚ := max lo (min hi v)

/-- Modelled from the spec: squared Euclidean distance from the point p to
the segment with endpoints a and b, via the clamped orthogonal
projection.  Part of the collision subsystem, which is not in the
repository. -/
def segPointDistSq (a b p : Vec2) : ℚ :=
  let abx := b.x - a.x
  let aby := b.y - a.y
  let len2 := abx ^ 2 + aby ^ 2
  if len2 = 0 then (p.x - a.x) ^ 2 + (p.y - a.y) ^ 2
  else
    let t := clampQ 0 1 (((p.x - a.x) * abx + (p.y - a.y) * aby) / len2)
    (p.x - (a.x + t * abx)) ^ 2 + (p.y - (a.y + t * aby)) ^ 2

/-- Modelled from the spec: a ball's circle overlaps the out-of-bounds
segment exactly when the distance from its center to the segment is below
the sum of the two radii. -/
def hitsDrain (b : BallB) : Bool :=
  decide (segPointDistSq out_of_bounds_segment.a out_of_bounds_segment.b ⟨b.px, b.py⟩ <
    (b.radius + out_of_bounds_segment.radius) ^ 2)

/-- Modelled from the spec: one substep of space.step restricted to what
the claims need — every ball is integrated under gravity, then every ball
found overlapping the out-of-bounds segment is handed to the registered
(ball, boundary) handler, which removes it from the space instead of
bouncing it.  Constraints are never added or removed by a step.  Wall and
paddle contact response is part of the physics core that is not in the
repository and no claim depends on it. -/
def stepWorld (dt : ℚ) (w : World) : World :=
  { w with balls := (w.balls.map (ballStep dt)).filter fun b => !hitsDrain b }

/-- The dynamic shapes handed to the renderer each frame by
space.debug_draw: the balls currently in the space (the static boundary
and paddle shapes are not ball-dependent). -/
def renderSnapshot (w : World) : List BallB := w.balls

/-- One observable action of the main loop body, in program order. -/
inductive Action
  | cmd (e : Event)
  | draw
  | substep (dt : ℚ)
  | flip
deriving DecidableEq

/-- Whether an action is the application of an input command. -/
def Action.isCmdA : Action → Bool
  | .cmd _ => true
  | _ => false

/-- Whether an action is a physics substep. -/
def Action.isSubA : Action → Bool
  | .substep _ => true
  | _ => false

/-- The fixed tail of every frame: the draw call, then the five substeps
of duration step / 5 taken by the for-loop around space.step, then the
display flip. -/
def frameTail : List Action :=
  [Action.draw] ++ List.replicate 5 (Action.substep subDt) ++ [Action.flip]

/-- The action trace of one iteration of the main while-loop of
pinball_2_paddles.py: first every pending input event is handled, then the
frame is drawn, then the five physics substeps run, then the display is
flipped. -/
def frameActions (es : List Event) : List Action := es.map Action.cmd ++ frameTail

/-- The state effect of one action on the scene. -/
def execAction (w : World) (a : Action) : World :=
  match a with
  | .cmd e => applyEvent w e
  | .substep dt => stepWorld dt w
  | _ => w

/-- The state effect of one full iteration of the main loop. -/
def runFrame (es : List Event) (w : World) : World :=
  (frameActions es).foldl execAction w

/-- The durations of the physics substeps occurring in one frame's trace. -/
def substepDurations (es : List Event) : List ℚ :=
  (frameActions es).filterMap fun a =>
    match a with
    | .substep d => some d
    | _ => none

/-- The world obtained from the configured scene by pressing space once,
spawning a single ball at horizontal position x. -/
def world1 (x : ℤ) : World := applyEvent setup_world (Event.spaceDown x)

/-- The per-constraint data that is fixed at setup time: attached body
ids, stiffness and damping of both springs, and both pin joints in full.
Every constraint field except the two springs' rest angles appears here. -/
def constraintSig (w : World) : (ℕ × ℕ × ℚ × ℚ) × (ℕ × ℕ × ℚ × ℚ) × PinJointC × PinJointC :=
  ((w.r_spring.a, w.r_spring.b, w.r_spring.stiffness, w.r_spring.damping),
   (w.l_spring.a, w.l_spring.b, w.l_spring.stiffness, w.l_spring.damping),
   w.r_pinjoint, w.l_pinjoint)

/-- Closed form of the spawned ball's state after n substeps of free fall:
velocity -3n and height 750 - n(n+1)/200, with all static attributes as
created by add_ball. -/
def fallBall (x : ℤ) (n : ℕ) : BallB :=
  { mass := 1, moment := .inf, px := (x : ℚ),
    py := 750 - (n : ℚ) * ((n : ℚ) + 1) / 200,
    vx := 0, vy := -3 * (n : ℚ), radius := 13, elasticity := 2/5,
    collision_type := 0 }

/-- Geometry of a circle shape, as validated at construction. -/
structure CircleGeom where
  radius : ℚ
deriving DecidableEq

/-- Geometry of a segment shape, as validated at construction. -/
structure SegmentGeom where
  a : Vec2
  b : Vec2
  radius : ℚ
deriving DecidableEq

/-- Cross product of two 2D vectors. -/
def crossV (a b : Vec2) : ℚ := a.x * b.y - a.y * b.x

/-- The list rotated left by one (cyclic successor order). -/
def rotate1 (vs : List Vec2) : List Vec2 := vs.drop 1 ++ vs.take 1

/-- Edge vectors of the closed polygon on the vertex list. -/
def edgeVecs (vs : List Vec2) : List Vec2 :=
  (vs.zip (rotate1 vs)).map fun p => ⟨p.2.x - p.1.x, p.2.y - p.1.y⟩

/-- Cross products of cyclically consecutive edge pairs, giving the turn
direction at each vertex. -/
def turnCrosses (vs : List Vec2) : List ℚ :=
  ((edgeVecs vs).zip (rotate1 (edgeVecs vs))).map fun p => crossV p.1 p.2

/-- Whether a direction vector lies in the upper angular half-plane
(angle in the interval from 0 inclusive to pi exclusive). -/
def isUpper (v : Vec2) : Bool :=
  decide (0 < v.y) || (decide (v.y = 0) && decide (0 < v.x))

/-- Strict comparison of two nonzero directions by angle in the interval
from 0 to 2 pi. -/
def angLt (a b : Vec2) : Bool :=
  (isUpper a && !isUpper b) || ((isUpper a == isUpper b) && decide (0 < crossV a b))

/-- How many cyclically consecutive edge pairs fail to increase in angle:
the edge directions of a convex simple polygon wrap around exactly once. -/
def wrapCount (vs : List Vec2) : ℕ :=
  (((edgeVecs vs).zip (rotate1 (edgeVecs vs))).filter fun p => !angLt p.1 p.2).length

/-- Whether the vertex list describes a strictly convex,
non-self-intersecting polygon (in either orientation): at least three
vertices, all turns strictly in one direction, and the edge directions
complete exactly one revolution. -/
def convexSimple (vs : List Vec2) : Bool :=
  decide (3 ≤ vs.length) &&
    ((((turnCrosses vs).all fun q => decide (0 < q)) && decide (wrapCount vs = 1)) ||
     (((turnCrosses vs.reverse).all fun q => decide (0 < q)) &&
       decide (wrapCount vs.reverse = 1)))

/-- Modelled from the spec: circle construction for the physics core (the
construction code is the external physics library, not in the repository).
A degenerate circle without positive radius is rejected at construction
time with a descriptive error; valid input is stored unchanged. -/
def mkCircle (radius : ℚ) : Except String CircleGeom :=
  if radius ≤ 0 then .error ("degenerate geometry: circle must have positive radius")
  else .ok { radius := radius }

/-- Modelled from the spec: segment construction for the physics core.  A
degenerate zero-length segment is rejected at construction time with a
descriptive error; valid input is stored unchanged. -/
def mkSegment (a b : Vec2) (radius : ℚ) : Except String SegmentGeom :=
  if a = b then .error ("degenerate geometry: segment must have distinct endpoints")
  else .ok { a := a, b := b, radius := radius }

/-- Modelled from the spec: polygon construction for the physics core.  A
non-convex or self-intersecting vertex list is rejected at construction
time with a descriptive error; valid input is stored unchanged, never
silently fixed. -/
def mkPoly (vs : List Vec2) : Except String (List Vec2) :=
  if convexSimple vs then .ok vs
  else .error ("degenerate geometry: polygon must be convex and non-self-intersecting")

/-- A non-convex example polygon (reflex vertex at (2, 1)). -/
def nonConvexPoly : List Vec2 := [⟨0, 0⟩, ⟨4, 0⟩, ⟨2, 1⟩, ⟨4, 4⟩, ⟨0, 4⟩]

open Classical in
/-- unit_vector_between of pinball_2_paddles.py over exact reals: the
difference vector a - b divided componentwise by its Euclidean magnitude,
the source's (x squared plus y squared) to the power one half.  The
division is unguarded in the source and raises ZeroDivisionError when the
magnitude is zero; the failure is modelled as the none case. -/
noncomputable def unit_vector_between (a b : ℝ × ℝ) : Option (ℝ × ℝ) :=
  let vector := (a.1 - b.1, a.2 - b.2)
  let magnitude := Real.sqrt (vector.1 ^ 2 + vector.2 ^ 2)
  if magnitude = 0 then none
  else some (vector.1 / magnitude, vector.2 / magnitude)

end Pinball

namespace Pinball

theorem segPointDistSq_horizontal (px py : ℚ) (h0 : 0 ≤ px) (h7 : px ≤ 700) :
    segPointDistSq ⟨0, -20⟩ ⟨700, -20⟩ ⟨px, py⟩ = (py + 20) ^ 2 := by
  dsimp only [segPointDistSq, clampQ]
  split_ifs with h
  · exfalso; norm_num at h
  · have h1 : ((px - 0) * (700 - 0) + (py - -20) * (-20 - -20)) /
        ((700 - 0) ^ 2 + (-20 - -20) ^ 2) = px / 700 := by ring
    rw [h1, min_eq_right (by rw [div_le_one (by norm_num)]; linarith),
      max_eq_right (div_nonneg h0 (by norm_num))]
    ring

theorem hitsDrain_false_of (b : BallB) (hr : b.radius = 13) (h0 : 0 ≤ b.px)
    (h7 : b.px ≤ 700) (hy : -2 < b.py) : hitsDrain b = false := by
  dsimp only [hitsDrain, out_of_bounds_segment]
  rw [decide_eq_false_iff_not]
  rw [segPointDistSq_horizontal b.px b.py h0 h7, hr]
  intro hlt
  nlinarith [mul_pos (by linarith : (0:ℚ) < b.py + 20 - 18)
    (by linarith : (0:ℚ) < b.py + 20 + 18)]

theorem hitsDrain_true_of (b : BallB) (hr : b.radius = 13) (h0 : 0 ≤ b.px)
    (h7 : b.px ≤ 700) (hlo : -38 < b.py) (hhi : b.py < -2) : hitsDrain b = true := by
  dsimp only [hitsDrain, out_of_bounds_segment]
  rw [decide_eq_true_eq]
  rw [segPointDistSq_horizontal b.px b.py h0 h7, hr]
  nlinarith [mul_pos (by linarith : (0:ℚ) < 18 - (b.py + 20))
    (by linarith : (0:ℚ) < (b.py + 20) + 18)]

theorem ballStep_fallBall (x : ℤ) (n : ℕ) :
    ballStep subDt (fallBall x n) = fallBall x (n + 1) := by
  dsimp only [ballStep, fallBall, gravity, subDt, frame_step, fps]
  simp only [BallB.mk.injEq, true_and, and_true]
  refine ⟨?_, ?_, ?_, ?_⟩ <;> push_cast <;> ring

theorem fallBall_py_above (x : ℤ) (n : ℕ) (hn : n ≤ 387) :
    (-2 : ℚ) < (fallBall x n).py := by
  dsimp only [fallBall]
  have h1 : (n : ℚ) ≤ 387 := by exact_mod_cast hn
  have h2 : (0 : ℚ) ≤ (n : ℚ) := Nat.cast_nonneg n
  nlinarith [mul_nonneg (by linarith : (0:ℚ) ≤ 387 - (n : ℚ))
    (by linarith : (0:ℚ) ≤ (n : ℚ) + 1)]

theorem fall_traj (x : ℤ) (h0 : (0:ℚ) ≤ (x:ℚ)) (h7 : (x:ℚ) ≤ 700) :
    ∀ n : ℕ, n ≤ 387 → ((stepWorld subDt)^[n] (world1 x)).balls = [fallBall x n] := by
  intro n
  induction n with
  | zero =>
    intro _
    simp only [Function.iterate_zero, id_eq, world1, applyEvent, setup_world]
    simp only [List.nil_append, add_ball, fallBall, collision_types, List.cons.injEq,
      BallB.mk.injEq, and_true]
    norm_num
  | succ n ih =>
    intro hn
    have hn' : n ≤ 387 := Nat.le_of_succ_le hn
    rw [Function.iterate_succ_apply']
    dsimp only [stepWorld]
    rw [ih hn', List.map_cons, List.map_nil, ballStep_fallBall]
    have hfalse : hitsDrain (fallBall x (n + 1)) = false := by
      apply hitsDrain_false_of
      · rfl
      · exact h0
      · exact h7
      · exact fallBall_py_above x (n + 1) hn
    rw [List.filter_cons, hfalse]
    simp

theorem fall_drained (x : ℤ) (h0 : (0:ℚ) ≤ (x:ℚ)) (h7 : (x:ℚ) ≤ 700) :
    ((stepWorld subDt)^[388] (world1 x)).balls = [] := by
  have h387 := fall_traj x h0 h7 387 le_rfl
  have h388 : (388 : ℕ) = 387 + 1 := rfl
  rw [h388, Function.iterate_succ_apply']
  dsimp only [stepWorld]
  rw [h387, List.map_cons, List.map_nil, ballStep_fallBall]
  have htrue : hitsDrain (fallBall x (387 + 1)) = true := by
    apply hitsDrain_true_of
    · rfl
    · exact h0
    · exact h7
    · dsimp only [fallBall]; norm_num
    · dsimp only [fallBall]; norm_num
  rw [List.filter_cons, htrue]
  simp

theorem stepWorld_balls_nil {dt : ℚ} {w : World} (h : w.balls = []) :
    (stepWorld dt w).balls = [] := by
  simp [stepWorld, h]

theorem iterate_balls_nil (w : World) {n m : ℕ} (hnm : n ≤ m)
    (h : ((stepWorld subDt)^[n] w).balls = []) :
    ((stepWorld subDt)^[m] w).balls = [] := by
  induction m, hnm using Nat.le_induction with
  | base => exact h
  | succ m _ ih => rw [Function.iterate_succ_apply']; exact stepWorld_balls_nil ih

theorem constraintSig_execAction (w : World) (a : Action) :
    constraintSig (execAction w a) = constraintSig w := by
  cases a with
  | cmd e => cases e <;> rfl
  | draw => rfl
  | substep dt => rfl
  | flip => rfl

theorem constraintSig_foldl (as : List Action) (w : World) :
    constraintSig (as.foldl execAction w) = constraintSig w := by
  induction as generalizing w with
  | nil => rfl
  | cons a as ih => rw [List.foldl_cons, ih, constraintSig_execAction]

theorem foldl_replicate_substep (k : ℕ) (w : World) :
    (List.replicate k (Action.substep subDt)).foldl execAction w =
      (stepWorld subDt)^[k] w := by
  induction k generalizing w with
  | zero => rfl
  | succ k ih =>
    rw [List.replicate_succ, List.foldl_cons, ih, Function.iterate_succ_apply]
    rfl

theorem frameTail_not_cmd : ∀ a ∈ frameTail, a.isCmdA = false := by
  intro a ha
  simp only [frameTail, List.mem_append, List.mem_singleton, List.mem_replicate] at ha
  rcases ha with (h | ⟨_, h⟩) | h <;> subst h <;> rfl

/-- C1. Whenever a ball shape collides with the out-of-bounds boundary
segment, the registered (ball, boundary) collision handler removes that
ball's shape and its body from the space and suppresses the default bounce
response (returns False), so that a ball spawned by add_ball and falling
in the modelled physics core is never rendered at or below the
out-of-bounds segment's y-coordinate -20, removal is permanent (a ball
absent from a snapshot is absent from every later snapshot), and the ball
is in fact removed at some substep. -/
theorem ball_drain_removal (x : ℤ) (hx1 : 100 ≤ x) (hx2 : x < 500) :
    (∀ (arbiter : Arbiter) (space : SpaceRefs),
        (remove_ball arbiter space).2 = false ∧
        arbiter.shape0.id ∉ (remove_ball arbiter space).1.shapes ∧
        arbiter.shape0.body ∉ (remove_ball arbiter space).1.bodies) ∧
    (∀ n : ℕ, ∀ b ∈ renderSnapshot ((stepWorld subDt)^[n] (world1 x)), -20 < b.py) ∧
    (∀ n m : ℕ, n ≤ m → renderSnapshot ((stepWorld subDt)^[n] (world1 x)) = [] →
        renderSnapshot ((stepWorld subDt)^[m] (world1 x)) = []) ∧
    (∃ N : ℕ, renderSnapshot ((stepWorld subDt)^[N] (world1 x)) = []) := by
  have h0 : (0:ℚ) ≤ (x:ℚ) := by exact_mod_cast (by omega : (0:ℤ) ≤ x)
  have h7 : (x:ℚ) ≤ 700 := by exact_mod_cast (by omega : x ≤ 700)
  refine ⟨?_, ?_, ?_, ?_⟩
  · intro arbiter space
    exact ⟨rfl, Finset.not_mem_erase _ _, Finset.not_mem_erase _ _⟩
  · intro n b hb
    by_cases hn : n ≤ 387
    · rw [renderSnapshot, fall_traj x h0 h7 n hn] at hb
      have hb' : b = fallBall x n := List.mem_singleton.mp hb
      have hpy := fallBall_py_above x n hn
      rw [hb']
      linarith
    · have h388 : ((stepWorld subDt)^[388] (world1 x)).balls = [] :=
        fall_drained x h0 h7
      have hnil : ((stepWorld subDt)^[n] (world1 x)).balls = [] :=
        iterate_balls_nil _ (by omega) h388
      rw [renderSnapshot, hnil] at hb
      simp at hb
  · intro n m hnm h
    exact iterate_balls_nil _ hnm h
  · exact ⟨388, fall_drained x h0 h7⟩

theorem ball_drain_removal_witness :
    ((100:ℤ) ≤ 300 ∧ (300:ℤ) < 500) ∧
    ((∀ (arbiter : Arbiter) (space : SpaceRefs),
        (remove_ball arbiter space).2 = false ∧
        arbiter.shape0.id ∉ (remove_ball arbiter space).1.shapes ∧
        arbiter.shape0.body ∉ (remove_ball arbiter space).1.bodies) ∧
    (∀ n : ℕ, ∀ b ∈ renderSnapshot ((stepWorld subDt)^[n] (world1 300)), -20 < b.py) ∧
    (∀ n m : ℕ, n ≤ m → renderSnapshot ((stepWorld subDt)^[n] (world1 300)) = [] →
        renderSnapshot ((stepWorld subDt)^[m] (world1 300)) = []) ∧
    (∃ N : ℕ, renderSnapshot ((stepWorld subDt)^[N] (world1 300)) = [])) :=
  ⟨⟨by decide, by decide⟩, ball_drain_removal 300 (by decide) (by decide)⟩

/-- C7. Spec scenario "spawn and fall": a ball spawned at (300, 750) under
gravity (0, -900) that touches no boundary, simulated for 1 second as 60
frames of 5 substeps of 1/300 s each with semi-implicit Euler integration,
ends with its y-position decreased by 903/2 = 451.5 units, which is within
the integration tolerance (g times dt over 2, accumulated over 1 s) of the
exact 450. -/
theorem spawn_and_fall_scenario :
    gravity = (0, -900) ∧
    renderSnapshot (world1 300) = [add_ball 300] ∧
    (add_ball 300).py = 750 ∧ (add_ball 300).vy = 0 ∧
    ∃ b : BallB, renderSnapshot ((stepWorld subDt)^[60 * 5] (world1 300)) = [b] ∧
      750 - b.py = 903 / 2 ∧ |(750 - b.py) - 450| ≤ 900 * subDt / 2 := by
  refine ⟨rfl, by simp [renderSnapshot, world1, applyEvent, setup_world], rfl, rfl,
    fallBall 300 300, ?_, ?_, ?_⟩
  · have h := fall_traj 300 (by norm_num) (by norm_num) 300 (by norm_num)
    have h60 : (60 * 5 : ℕ) = 300 := by norm_num
    rw [renderSnapshot, h60, h]
  · dsimp only [fallBall]; push_cast; norm_num
  · have hval : (750:ℚ) - (fallBall 300 300).py = 903 / 2 := by
      dsimp only [fallBall]; push_cast; norm_num
    rw [hval, show (903:ℚ) / 2 - 450 = 3 / 2 from by norm_num,
      abs_of_nonneg (by norm_num : (0:ℚ) ≤ 3 / 2)]
    dsimp only [subDt, frame_step, fps]
    norm_num

/-- C2. Each frame, the main loop advances the space by the frame duration
1/60 s divided into exactly 5 equal substeps executed strictly
sequentially (the foldl over the trace), each advancing the space by
(1/60)/5 = 1/300 s, rather than by one large step. -/
theorem frame_five_substeps :
    (∀ es : List Event, substepDurations es = List.replicate 5 (frame_step / 5)) ∧
    frame_step = 1 / 60 ∧ frame_step / 5 = 1 / 300 ∧
    (∀ es : List Event, (substepDurations es).length = 5) ∧
    (∀ es : List Event, (substepDurations es).sum = frame_step) := by
  have key : ∀ es : List Event,
      substepDurations es = List.replicate 5 (frame_step / 5) := by
    intro es
    dsimp only [substepDurations, frameActions]
    rw [List.filterMap_append]
    have h1 : (es.map Action.cmd).filterMap (fun a =>
        match a with
        | .substep d => some d
        | _ => none) = [] := by
      induction es with
      | nil => rfl
      | cons e es ih => simp
    rw [h1, List.nil_append]
    rfl
  refine ⟨key, ?_, ?_, ?_, ?_⟩
  · dsimp only [frame_step, fps]; norm_num
  · dsimp only [frame_step, fps]; norm_num
  · intro es; rw [key es]; simp
  · intro es
    rw [key es, List.sum_replicate, nsmul_eq_mul]
    push_cast
    ring

/-- C4. After scene setup, runtime commands mutate only a spring's
rest-angle field: every constraint's attached bodies, stiffness and
damping (collected in constraintSig) are unchanged by every input event,
by every physics substep, and hence by every full frame, and the four
constraints persist (constraintSig is total on them). -/
theorem commands_mutate_only_rest_angle :
    (∀ (w : World) (e : Event), constraintSig (applyEvent w e) = constraintSig w) ∧
    (∀ (w : World) (dt : ℚ), constraintSig (stepWorld dt w) = constraintSig w) ∧
    (∀ (es : List Event) (w : World), constraintSig (runFrame es w) = constraintSig w) :=
  ⟨fun w e => by cases e <;> rfl, fun _ _ => rfl,
    fun es w => constraintSig_foldl _ _⟩

/-- C5. In every iteration of the main loop, all commands produced by that
frame's input events are applied before any of the frame's 5 physics
substeps run (the frame's effect factors as 5 iterated substeps after
applying all events), and in the frame's action trace every command index
strictly precedes every substep index, so no command is applied between
or during substeps. -/
theorem commands_before_substeps :
    (∀ (es : List Event) (w : World),
        runFrame es w = (stepWorld subDt)^[5] (applyEvents es w)) ∧
    (∀ (es : List Event) (i j : ℕ) (hi : i < (frameActions es).length)
        (hj : j < (frameActions es).length),
        ((frameActions es).get ⟨i, hi⟩).isCmdA = true →
        ((frameActions es).get ⟨j, hj⟩).isSubA = true → i < j) := by
  constructor
  · intro es w
    dsimp only [runFrame, frameActions, frameTail, applyEvents]
    rw [List.foldl_append, List.foldl_append, List.foldl_append]
    rw [List.foldl_map]
    rfl
  · intro es i j hi hj hci hsj
    have hlen : (es.map Action.cmd).length = es.length := List.length_map _ _
    have hilt : i < es.length := by
      by_contra hcon
      push_neg at hcon
      have hmem : (frameActions es).get ⟨i, hi⟩ ∈ frameTail := by
        rw [List.get_eq_getElem]
        dsimp only [frameActions]
        rw [List.getElem_append_right (by rw [hlen]; exact hcon)]
        exact List.getElem_mem _
      rw [frameTail_not_cmd _ hmem] at hci
      exact Bool.false_ne_true hci
    have hjge : es.length ≤ j := by
      by_contra hcon
      push_neg at hcon
      have : ((frameActions es).get ⟨j, hj⟩).isSubA = false := by
        rw [List.get_eq_getElem]
        dsimp only [frameActions]
        rw [List.getElem_append_left (by rw [hlen]; exact hcon)]
        rw [List.getElem_map]
        rfl
      rw [this] at hsj
      exact Bool.false_ne_true hsj
    omega

theorem commands_before_substeps_witness :
    runFrame [Event.leftDown] setup_world =
      (stepWorld subDt)^[5] (applyEvents [Event.leftDown] setup_world) ∧
    (0 : ℕ) < 2 :=
  ⟨commands_before_substeps.1 [Event.leftDown] setup_world,
    commands_before_substeps.2 [Event.leftDown] 0 2 (by decide) (by decide)
      (by decide) (by decide)⟩

/-- C3. Every spawn-ball command (add_ball, with x the value drawn by
random.randrange(100, 500)) creates exactly one new body with finite mass
1 and infinite moment of inertia, carrying one circular shape of radius
13, positioned at the randomized horizontal coordinate x on the spawn line
y = 750, tagged with the ball collision category, with nonzero elasticity
0.4. -/
theorem add_ball_spec (x : ℤ) (hx1 : 100 ≤ x) (hx2 : x < 500) :
    (add_ball x).mass = 1 ∧ (add_ball x).moment = Moment.inf ∧
    (add_ball x).radius = 13 ∧
    (add_ball x).px = (x : ℚ) ∧ (add_ball x).py = 750 ∧
    (100 : ℚ) ≤ (add_ball x).px ∧ (add_ball x).px < 500 ∧
    (add_ball x).collision_type = collision_types CollisionCategory.ball ∧
    (add_ball x).elasticity = 2 / 5 ∧ (add_ball x).elasticity ≠ 0 ∧
    (∀ w : World, (applyEvent w (Event.spaceDown x)).balls = w.balls ++ [add_ball x]) := by
  refine ⟨rfl, rfl, rfl, rfl, rfl, ?_, ?_, rfl, rfl, ?_, fun w => rfl⟩
  · show (100 : ℚ) ≤ (x : ℚ)
    exact_mod_cast hx1
  · show (x : ℚ) < 500
    exact_mod_cast hx2
  · show (2 / 5 : ℚ) ≠ 0
    norm_num

theorem add_ball_spec_witness :
    ((100 : ℤ) ≤ 300 ∧ (300 : ℤ) < 500) ∧
    ((add_ball 300).mass = 1 ∧ (add_ball 300).moment = Moment.inf ∧
    (add_ball 300).radius = 13 ∧
    (add_ball 300).px = ((300 : ℤ) : ℚ) ∧ (add_ball 300).py = 750 ∧
    (100 : ℚ) ≤ (add_ball 300).px ∧ (add_ball 300).px < 500 ∧
    (add_ball 300).collision_type = collision_types CollisionCategory.ball ∧
    (add_ball 300).elasticity = 2 / 5 ∧ (add_ball 300).elasticity ≠ 0 ∧
    (∀ w : World, (applyEvent w (Event.spaceDown 300)).balls = w.balls ++ [add_ball 300])) :=
  ⟨⟨by decide, by decide⟩, add_ball_spec 300 (by decide) (by decide)⟩

/-- C10. Every ball created by add_ball starts strictly inside the
playfield: its center has y = 750 and x in the interval from 100 inclusive
to 500 exclusive, hence strictly between the left wall segment at x = 50
(index 2 of the boundary list) and the right wall segment at x = 550
(index 3), and below the top wall segment at y = 800 (index 4). -/
theorem ball_spawn_inside_playfield (x : ℤ) (hx1 : 100 ≤ x) (hx2 : x < 500) :
    (add_ball x).py = 750 ∧
    (100 : ℚ) ≤ (add_ball x).px ∧ (add_ball x).px < 500 ∧
    (setup_boundaries_segments.get ⟨2, by decide⟩).a.x < (add_ball x).px ∧
    (add_ball x).px < (setup_boundaries_segments.get ⟨3, by decide⟩).a.x ∧
    (add_ball x).py < (setup_boundaries_segments.get ⟨4, by decide⟩).a.y := by
  have hq1 : (100 : ℚ) ≤ (x : ℚ) := by exact_mod_cast hx1
  have hq2 : (x : ℚ) < 500 := by exact_mod_cast hx2
  refine ⟨rfl, hq1, hq2, ?_, ?_, ?_⟩
  · show (50 : ℚ) < (x : ℚ)
    linarith
  · show (x : ℚ) < (550 : ℚ)
    linarith
  · show (750 : ℚ) < (800 : ℚ)
    norm_num

theorem ball_spawn_inside_playfield_witness :
    ((100 : ℤ) ≤ 300 ∧ (300 : ℤ) < 500) ∧
    ((add_ball 300).py = 750 ∧
    (100 : ℚ) ≤ (add_ball 300).px ∧ (add_ball 300).px < 500 ∧
    (setup_boundaries_segments.get ⟨2, by decide⟩).a.x < (add_ball 300).px ∧
    (add_ball 300).px < (setup_boundaries_segments.get ⟨3, by decide⟩).a.x ∧
    (add_ball 300).py < (setup_boundaries_segments.get ⟨4, by decide⟩).a.y) :=
  ⟨⟨by decide, by decide⟩, ball_spawn_inside_playfield 300 (by decide) (by decide)⟩

/-- C8. The single-paddle variant is a configuration instance of the same
core as the two-paddle variant: its setup builds identical boundary
segments (including the out-of-bounds segment) and the identical
(ball, boundary) handler, and its one paddle actuator — vertices
(0,0), (-80,0), (-80,20), (0,20), mass 10000, pivot (400, 60), stiffness
5E10, damping 2E9, rest angle pi/6 — is identical to the two-paddle
variant's paddle at (400, 60). -/
theorem template_is_configuration_instance :
    template_boundaries_segments = setup_boundaries_segments ∧
    template_out_of_bounds_segment = out_of_bounds_segment ∧
    template_collision_handler_key = pinball2_collision_handler_key ∧
    (∀ (arbiter : Arbiter) (space : SpaceRefs),
        remove_ball_template arbiter space = remove_ball arbiter space) ∧
    template_paddle_def = l_paddle_def ∧
    template_paddle_def.vertices = [⟨0, 0⟩, ⟨-80, 0⟩, ⟨-80, 20⟩, ⟨0, 20⟩] ∧
    template_paddle_def.mass = 10000 ∧
    template_paddle_def.position = ⟨400, 60⟩ ∧
    template_paddle_def.stiffness = 50000000000 ∧
    template_paddle_def.damping = 2000000000 ∧
    template_paddle_def.rest_angle = 1 / 6 :=
  ⟨rfl, rfl, rfl, fun _ _ => rfl, rfl, rfl, rfl, rfl, rfl, rfl, rfl⟩

theorem convexSimple_nonConvexPoly : convexSimple nonConvexPoly = false := by
  norm_num [convexSimple, nonConvexPoly, turnCrosses, edgeVecs, rotate1, crossV,
    wrapCount, angLt, isUpper]

theorem convexSimple_r_paddle : convexSimple r_paddle_def.vertices = true := by
  norm_num [convexSimple, r_paddle_def, turnCrosses, edgeVecs, rotate1, crossV,
    wrapCount, angLt, isUpper]

theorem convexSimple_l_paddle : convexSimple l_paddle_def.vertices = true := by
  norm_num [convexSimple, l_paddle_def, turnCrosses, edgeVecs, rotate1, crossV,
    wrapCount, angLt, isUpper]

/-- C6. Degenerate geometry — a zero-radius circle, a zero-length segment,
or a non-convex or self-intersecting polygon — is rejected at construction
time with a descriptive (nonempty) error and is never silently fixed:
every accepted input is stored exactly as given, and the repository's own
shapes (the radius-13 ball circle, the out-of-bounds segment, the two
paddle polygons) are accepted unchanged. -/
theorem degenerate_geometry_rejected :
    (∃ msg, mkCircle 0 = .error msg ∧ msg ≠ "") ∧
    (∃ msg, mkSegment ⟨3, 4⟩ ⟨3, 4⟩ 5 = .error msg ∧ msg ≠ "") ∧
    (∃ msg, mkPoly nonConvexPoly = .error msg ∧ msg ≠ "") ∧
    (∀ r, mkCircle r = .ok { radius := r } ∨
      ∃ msg, mkCircle r = .error msg ∧ msg ≠ "") ∧
    (∀ a b rad, mkSegment a b rad = .ok { a := a, b := b, radius := rad } ∨
      ∃ msg, mkSegment a b rad = .error msg ∧ msg ≠ "") ∧
    (∀ vs, mkPoly vs = .ok vs ∨ ∃ msg, mkPoly vs = .error msg ∧ msg ≠ "") ∧
    mkCircle (add_ball 300).radius = .ok { radius := 13 } ∧
    mkSegment out_of_bounds_segment.a out_of_bounds_segment.b out_of_bounds_segment.radius =
      .ok { a := ⟨0, -20⟩, b := ⟨700, -20⟩, radius := 5 } ∧
    mkPoly r_paddle_def.vertices = .ok r_paddle_def.vertices ∧
    mkPoly l_paddle_def.vertices = .ok l_paddle_def.vertices := by
  refine ⟨?_, ?_, ?_, ?_, ?_, ?_, ?_, ?_, ?_, ?_⟩
  · exact ⟨"degenerate geometry: circle must have positive radius",
      by simp [mkCircle], by decide⟩
  · exact ⟨"degenerate geometry: segment must have distinct endpoints",
      by simp [mkSegment], by decide⟩
  · exact ⟨"degenerate geometry: polygon must be convex and non-self-intersecting",
      by simp [mkPoly, convexSimple_nonConvexPoly], by decide⟩
  · intro r
    dsimp only [mkCircle]
    split_ifs with h
    · exact Or.inr ⟨_, rfl, by decide⟩
    · exact Or.inl rfl
  · intro a b rad
    dsimp only [mkSegment]
    split_ifs with h
    · exact Or.inr ⟨_, rfl, by decide⟩
    · exact Or.inl rfl
  · intro vs
    dsimp only [mkPoly]
    split_ifs with h
    · exact Or.inl rfl
    · exact Or.inr ⟨_, rfl, by decide⟩
  · simp [mkCircle, add_ball]
  · simp [mkSegment, out_of_bounds_segment]
  · simp [mkPoly, convexSimple_r_paddle]
  · simp [mkPoly, convexSimple_l_paddle]

/-- C9. For distinct points a and b, unit_vector_between returns the unit
vector (Euclidean norm 1) that is a positive scalar multiple of a - b,
pointing from b toward a; for a = b the magnitude is zero and the
unguarded division fails (none, the source's ZeroDivisionError) instead of
returning a value. -/
theorem unit_vector_between_spec (a b : ℝ × ℝ) :
    (a ≠ b → ∃ u : ℝ × ℝ, unit_vector_between a b = some u ∧
        Real.sqrt (u.1 ^ 2 + u.2 ^ 2) = 1 ∧
        ∃ c : ℝ, 0 < c ∧ u = (c * (a.1 - b.1), c * (a.2 - b.2))) ∧
    (a = b → unit_vector_between a b = none) := by
  constructor
  · intro hab
    have hv : a.1 - b.1 ≠ 0 ∨ a.2 - b.2 ≠ 0 := by
      by_contra h
      push_neg at h
      exact hab (Prod.ext (by linarith [sub_eq_zero.mp h.1])
        (by linarith [sub_eq_zero.mp h.2]))
    have hs : 0 < (a.1 - b.1) ^ 2 + (a.2 - b.2) ^ 2 := by
      rcases hv with h | h
      · have h1 : 0 < (a.1 - b.1) ^ 2 := by positivity
        nlinarith [sq_nonneg (a.2 - b.2)]
      · have h1 : 0 < (a.2 - b.2) ^ 2 := by positivity
        nlinarith [sq_nonneg (a.1 - b.1)]
    have hm : 0 < Real.sqrt ((a.1 - b.1) ^ 2 + (a.2 - b.2) ^ 2) :=
      Real.sqrt_pos.mpr hs
    refine ⟨((a.1 - b.1) / Real.sqrt ((a.1 - b.1) ^ 2 + (a.2 - b.2) ^ 2),
      (a.2 - b.2) / Real.sqrt ((a.1 - b.1) ^ 2 + (a.2 - b.2) ^ 2)), ?_, ?_, ?_⟩
    · dsimp only [unit_vector_between]
      rw [if_neg hm.ne']
    · have hmsq : Real.sqrt ((a.1 - b.1) ^ 2 + (a.2 - b.2) ^ 2) ^ 2 =
          (a.1 - b.1) ^ 2 + (a.2 - b.2) ^ 2 := Real.sq_sqrt hs.le
      have harg : ((a.1 - b.1) / Real.sqrt ((a.1 - b.1) ^ 2 + (a.2 - b.2) ^ 2)) ^ 2 +
          ((a.2 - b.2) / Real.sqrt ((a.1 - b.1) ^ 2 + (a.2 - b.2) ^ 2)) ^ 2 = 1 := by
        rw [div_pow, div_pow, hmsq]
        field_simp
      rw [harg, Real.sqrt_one]
    · refine ⟨(Real.sqrt ((a.1 - b.1) ^ 2 + (a.2 - b.2) ^ 2))⁻¹, inv_pos.mpr hm, ?_⟩
      rw [div_eq_inv_mul, div_eq_inv_mul]
  · intro hab
    subst hab
    dsimp only [unit_vector_between]
    rw [if_pos]
    rw [sub_self, sub_self]
    norm_num

theorem unit_vector_between_spec_witness :
    (((1 : ℝ), (0 : ℝ)) ≠ ((0 : ℝ), (0 : ℝ))) ∧
    (∃ u : (ℝ × ℝ), unit_vector_between (1, 0) (0, 0) = some u ∧
        Real.sqrt (u.1 ^ 2 + u.2 ^ 2) = 1 ∧
        ∃ c : ℝ, 0 < c ∧
          u = (c * (((1 : ℝ), (0 : ℝ)).1 - ((0 : ℝ), (0 : ℝ)).1),
               c * (((1 : ℝ), (0 : ℝ)).2 - ((0 : ℝ), (0 : ℝ)).2))) :=
  ⟨by norm_num [Prod.ext_iff],
    (unit_vector_between_spec (1, 0) (0, 0)).1 (by norm_num [Prod.ext_iff])⟩

end Pinball
